import Mathlib

/-!
# Shader (src/1_GettingStarted/Shaders/shader.h)

A shallow embedding of the `Shader` class: its constructor (read two files,
compile two stages, link, report), `use`, the three uniform setters and the
private helper `checkCompileErrors`.

Everything outside the class is an explicit parameter:

* the file system answers `open`, the transfer done by `stream << file.rdbuf()`
  and `close`;
* the graphics driver answers every `gl*` entry point the class calls.

Both act on one environment state `ω`.  A statement of the class is a function
from the environment to a `Run`: its result (a value, or a propagating
`std::ifstream::failure`), the new environment, the external calls it made
(with the answers it got) and the entries it wrote to `std::cout`.

Modelling decisions:

* every query (`glGetShaderiv`, `glGetShaderInfoLog`, ...) gets an answer: the
  driver always writes `success` and leaves a string in `infoLog`;
* `std::ifstream::failure` is the only exception; running out of memory is not
  modelled;
* the destructors of the two `ifstream` objects, which run when the
  constructor returns and close a file that is still open without throwing,
  are not part of the call sequence;
* object names and integers are unbounded (`Nat`, `Int`): the class only
  passes them on.
-/

namespace ShaderModel

/-! ## Vocabulary of external calls -/

/-- The two values of the `type` argument of `glCreateShader` used by the class. -/
inductive ShaderType
  | GL_VERTEX_SHADER
  | GL_FRAGMENT_SHADER
  deriving DecidableEq, Repr

/-- A `float` argument.  The class never computes with it, it only hands it to
`glUniform1f`, so it is carried as its 32-bit pattern. -/
structure GLfloat where
  bits : Nat
  deriving DecidableEq, Repr

/-- One external call together with the answer that came back.
`GLuint` object names are `Nat`, `GLint` values are `Int`; the class never does
arithmetic on either. -/
inductive Call
  /-- The call `ifstream::open(path)`; `good` is false when the open failed. -/
  | fileOpen (path : String) (good : Bool)
  /-- The transfer `stream << file.rdbuf()`: the characters transferred, and
  whether a read error cut the transfer short (as opposed to end of file). -/
  | fileRdbuf (path : String) (text : String) (ioError : Bool)
  /-- The call `ifstream::close()`; `good` is false when the close failed. -/
  | fileClose (path : String) (good : Bool)
  | glCreateShader (type : ShaderType) (ret : Nat)
  | glShaderSource (shader : Nat) (source : String)
  | glCompileShader (shader : Nat)
  /-- The call `glGetShaderiv(shader, GL_COMPILE_STATUS, &success)`. -/
  | glGetShaderiv (shader : Nat) (success : Int)
  | glGetShaderInfoLog (shader : Nat) (bufSize : Nat) (infoLog : String)
  | glCreateProgram (ret : Nat)
  | glAttachShader (program : Nat) (shader : Nat)
  | glLinkProgram (program : Nat)
  /-- The call `glGetProgramiv(program, GL_LINK_STATUS, &success)`. -/
  | glGetProgramiv (program : Nat) (success : Int)
  | glGetProgramInfoLog (program : Nat) (bufSize : Nat) (infoLog : String)
  | glDeleteShader (shader : Nat)
  /-- Part of the driver interface; no statement of the class issues it. -/
  | glDeleteProgram (program : Nat)
  | glUseProgram (program : Nat)
  | glGetUniformLocation (program : Nat) (name : String) (ret : Int)
  | glUniform1i (location : Int) (v0 : Int)
  | glUniform1f (location : Int) (v0 : GLfloat)
  deriving DecidableEq, Repr

/-- One `std::cout << ... << std::endl` statement of the class. -/
inductive LogEntry
  /-- Line 45. -/
  | fileNotRead
  /-- Line 116, with the `type` argument and the contents of `infoLog`. -/
  | compilationError (type : String) (infoLog : String)
  /-- Line 125, with the `type` argument and the contents of `infoLog`. -/
  | programLinkingError (type : String) (infoLog : String)
  /-- Line 75, with the contents of `infoLog`. -/
  | linkingFailed (infoLog : String)
  deriving DecidableEq, Repr

/-- The characters an entry puts on `std::cout` (`std::endl` ends the line). -/
def LogEntry.text : LogEntry → String
  | .fileNotRead => "ERROR::SHADER::FILE_NOT_SUCCESFULLY_READ" ++ "\n"
  | .compilationError type infoLog =>
      "ERROR::SHADER_COMPILATION_ERROR of type: " ++ type ++ "\n" ++ infoLog ++ "\n"
  | .programLinkingError type infoLog =>
      "ERROR::PROGRAM_LINKING_ERROR of type: " ++ type ++ "\n" ++ infoLog ++ "\n"
  | .linkingFailed infoLog =>
      "ERROR::SHADER::PROGRAM::LINKING_FAILED\n" ++ infoLog ++ "\n"

/-! ## The environment -/

/-- Answers of the file system, as a state machine on `ω`. -/
structure FileSystem (ω : Type) where
  /-- Whether `ifstream::open(path)` succeeds. -/
  fileOpen : String → ω → Bool × ω
  /-- The characters `stream << file.rdbuf()` transfers from the file opened
  at `path`, and whether a read error ended the transfer. -/
  fileRdbuf : String → ω → (String × Bool) × ω
  /-- Whether `ifstream::close()` succeeds. -/
  fileClose : String → ω → Bool × ω

/-- Answers of the driver to the calls the constructor makes. -/
structure GLBuild (ω : Type) where
  glCreateShader : ShaderType → ω → Nat × ω
  glShaderSource : Nat → String → ω → ω
  glCompileShader : Nat → ω → ω
  /-- Value stored in `success` for `GL_COMPILE_STATUS`. -/
  glGetShaderiv : Nat → ω → Int × ω
  /-- String left in the buffer of size `bufSize`. -/
  glGetShaderInfoLog : Nat → Nat → ω → String × ω
  glCreateProgram : ω → Nat × ω
  glAttachShader : Nat → Nat → ω → ω
  glLinkProgram : Nat → ω → ω
  /-- Value stored in `success` for `GL_LINK_STATUS`. -/
  glGetProgramiv : Nat → ω → Int × ω
  /-- String left in the buffer of size `bufSize`. -/
  glGetProgramInfoLog : Nat → Nat → ω → String × ω
  glDeleteShader : Nat → ω → ω

/-- Answers of the driver to the calls `use` and the setters make. -/
structure GLUniform (ω : Type) where
  glUseProgram : Nat → ω → ω
  glGetUniformLocation : Nat → String → ω → Int × ω
  glUniform1i : Int → Int → ω → ω
  glUniform1f : Int → GLfloat → ω → ω

/-! ## Statements -/

/-- The exception type `std::ifstream::failure`. -/
inductive IosFailure
  | failure
  deriving DecidableEq, Repr

/-- What running a statement produced. -/
structure Run (ω α : Type) where
  /-- Normal completion with a value, or an exception leaving the statement. -/
  result : Except IosFailure α
  /-- Environment afterwards. -/
  env : ω
  /-- External calls made, oldest first. -/
  calls : List Call
  /-- Entries written to `std::cout`, oldest first. -/
  out : List LogEntry

/-- A statement: run from an environment state. -/
def Stmt (ω α : Type) : Type := ω → Run ω α

/-- Completion with a value, no effect. -/
def Stmt.ret {ω α : Type} (a : α) : Stmt ω α :=
  fun e => { result := .ok a, env := e, calls := [], out := [] }

/-- Sequencing; an exception in the first statement skips the second. -/
def Stmt.seq {ω α β : Type} (m : Stmt ω α) (f : α → Stmt ω β) : Stmt ω β :=
  fun e =>
    let r := m e
    match r.result with
    | .error x => { result := .error x, env := r.env, calls := r.calls, out := r.out }
    | .ok a =>
      let r2 := f a r.env
      { result := r2.result, env := r2.env,
        calls := r.calls ++ r2.calls, out := r.out ++ r2.out }

/-- The statement `throw x`. -/
def Stmt.raise {ω α : Type} (x : IosFailure) : Stmt ω α :=
  fun e => { result := .error x, env := e, calls := [], out := [] }

/-- The statement `try m catch (x) h`. -/
def Stmt.handle {ω α : Type} (m : Stmt ω α) (h : IosFailure → Stmt ω α) : Stmt ω α :=
  fun e =>
    let r := m e
    match r.result with
    | .ok a => { result := .ok a, env := r.env, calls := r.calls, out := r.out }
    | .error x =>
      let r2 := h x r.env
      { result := r2.result, env := r2.env,
        calls := r.calls ++ r2.calls, out := r.out ++ r2.out }

instance (ω : Type) : Monad (Stmt ω) where
  pure := Stmt.ret
  bind := Stmt.seq

instance (ω : Type) : MonadExcept IosFailure (Stmt ω) where
  throw := Stmt.raise
  tryCatch := Stmt.handle

/-- One external call: ask the environment, record the call. -/
def Stmt.call {ω α : Type} (ask : ω → α × ω) (record : α → Call) : Stmt ω α :=
  fun e =>
    let r := ask e
    { result := .ok r.1, env := r.2, calls := [record r.1], out := [] }

/-- One `std::cout << ... << std::endl`. -/
def cout {ω : Type} (entry : LogEntry) : Stmt ω Unit :=
  fun e => { result := .ok (), env := e, calls := [], out := [entry] }

/-! ## Stream operations

`ios::setstate(failbit)` throws `ios_base::failure` exactly when `failbit` is
in the exception mask of the stream.  Lines 25 and 26 put `failbit | badbit` in the
mask of `vShaderFile` and `fShaderFile`.  The two `std::stringstream` objects
of line 32 are default-constructed, their mask is empty. -/

/-- The statement `setstate(failbit)` on a stream whose exception mask has
`failbit` iff `mask`. -/
def setstateFailbit {ω : Type} (mask : Bool) : Stmt ω Unit :=
  if mask then throw IosFailure.failure else pure ()

/-- The statement `file.open(path)` on an `ifstream` with exception mask
`mask`: a failed open calls `setstate(failbit)`. -/
def ifstreamOpen {ω : Type} (F : FileSystem ω) (mask : Bool) (path : String) :
    Stmt ω Unit := do
  let good ← Stmt.call (F.fileOpen path) (Call.fileOpen path)
  if !good then setstateFailbit mask

/-- The statement `stream << file.rdbuf()`, where `streamMask` is the
exception mask of `stream`, the left operand.  The insertion catches
whatever the read raises and reports it on `stream` with `setstate(failbit)`,
as it does when nothing was inserted; the characters transferred stay in
`stream`.  The state and mask of `file` play no part. -/
def insertRdbuf {ω : Type} (F : FileSystem ω) (streamMask : Bool) (path : String) :
    Stmt ω String := do
  let r ← Stmt.call (F.fileRdbuf path) (fun r => Call.fileRdbuf path r.1 r.2)
  if r.2 || r.1.isEmpty then setstateFailbit streamMask
  pure r.1

/-- The statement `file.close()` on an `ifstream` with exception mask `mask`:
a failed close calls `setstate(failbit)`. -/
def ifstreamClose {ω : Type} (F : FileSystem ω) (mask : Bool) (path : String) :
    Stmt ω Unit := do
  let good ← Stmt.call (F.fileClose path) (Call.fileClose path)
  if !good then setstateFailbit mask

/-! ## Driver calls -/

section driver
variable {ω : Type}

def glCreateShader (B : GLBuild ω) (type : ShaderType) : Stmt ω Nat :=
  Stmt.call (B.glCreateShader type) (Call.glCreateShader type)

def glShaderSource (B : GLBuild ω) (shader : Nat) (source : String) : Stmt ω Unit :=
  Stmt.call (fun e => ((), B.glShaderSource shader source e))
    (fun _ => Call.glShaderSource shader source)

def glCompileShader (B : GLBuild ω) (shader : Nat) : Stmt ω Unit :=
  Stmt.call (fun e => ((), B.glCompileShader shader e)) (fun _ => Call.glCompileShader shader)

def glGetShaderiv (B : GLBuild ω) (shader : Nat) : Stmt ω Int :=
  Stmt.call (B.glGetShaderiv shader) (Call.glGetShaderiv shader)

def glGetShaderInfoLog (B : GLBuild ω) (shader : Nat) (bufSize : Nat) : Stmt ω String :=
  Stmt.call (B.glGetShaderInfoLog shader bufSize) (Call.glGetShaderInfoLog shader bufSize)

def glCreateProgram (B : GLBuild ω) : Stmt ω Nat :=
  Stmt.call B.glCreateProgram Call.glCreateProgram

def glAttachShader (B : GLBuild ω) (program shader : Nat) : Stmt ω Unit :=
  Stmt.call (fun e => ((), B.glAttachShader program shader e))
    (fun _ => Call.glAttachShader program shader)

def glLinkProgram (B : GLBuild ω) (program : Nat) : Stmt ω Unit :=
  Stmt.call (fun e => ((), B.glLinkProgram program e)) (fun _ => Call.glLinkProgram program)

def glGetProgramiv (B : GLBuild ω) (program : Nat) : Stmt ω Int :=
  Stmt.call (B.glGetProgramiv program) (Call.glGetProgramiv program)

def glGetProgramInfoLog (B : GLBuild ω) (program : Nat) (bufSize : Nat) : Stmt ω String :=
  Stmt.call (B.glGetProgramInfoLog program bufSize) (Call.glGetProgramInfoLog program bufSize)

def glDeleteShader (B : GLBuild ω) (shader : Nat) : Stmt ω Unit :=
  Stmt.call (fun e => ((), B.glDeleteShader shader e)) (fun _ => Call.glDeleteShader shader)

def glUseProgram (U : GLUniform ω) (program : Nat) : Stmt ω Unit :=
  Stmt.call (fun e => ((), U.glUseProgram program e)) (fun _ => Call.glUseProgram program)

def glGetUniformLocation (U : GLUniform ω) (program : Nat) (name : String) : Stmt ω Int :=
  Stmt.call (U.glGetUniformLocation program name) (Call.glGetUniformLocation program name)

def glUniform1i (U : GLUniform ω) (location v0 : Int) : Stmt ω Unit :=
  Stmt.call (fun e => ((), U.glUniform1i location v0 e)) (fun _ => Call.glUniform1i location v0)

def glUniform1f (U : GLUniform ω) (location : Int) (v0 : GLfloat) : Stmt ω Unit :=
  Stmt.call (fun e => ((), U.glUniform1f location v0 e)) (fun _ => Call.glUniform1f location v0)

end driver

/-! ## The class -/

/-- The class `Shader`: its one data member. -/
structure Shader where
  ID : Nat
  deriving DecidableEq, Repr

section shader
variable {ω : Type}

/-- Lines 106-128, `Shader::checkCompileErrors(shader, type)`. -/
def Shader.checkCompileErrors (B : GLBuild ω) (shader : Nat) (type : String) :
    Stmt ω Unit := do
  if type ≠ "PROGRAM" then
    let success ← glGetShaderiv B shader
    if success = 0 then
      let infoLog ← glGetShaderInfoLog B shader 1024
      cout (LogEntry.compilationError type infoLog)
  else
    let success ← glGetProgramiv B shader
    if success = 0 then
      let infoLog ← glGetProgramInfoLog B shader 1024
      cout (LogEntry.programLinkingError type infoLog)

/-- Lines 17-81, the constructor `Shader::Shader(vertexPath, fragmentPath)`.
Inside the namespace of the class the name `Shader` is the type, so the
constructor is called `new`. -/
def Shader.new (F : FileSystem ω) (B : GLBuild ω) (vertexPath fragmentPath : String) :
    Stmt ω Shader := do
  -- 1. retrieve the vertex/fragment source
  let mut vertexCode := ""
  let mut fragmentCode := ""
  try
    ifstreamOpen F true vertexPath
    ifstreamOpen F true fragmentPath
    let vShaderStream ← insertRdbuf F false vertexPath
    let fShaderStream ← insertRdbuf F false fragmentPath
    ifstreamClose F true vertexPath
    ifstreamClose F true fragmentPath
    vertexCode := vShaderStream
    fragmentCode := fShaderStream
  catch _ =>
    cout LogEntry.fileNotRead
  -- 2. compile shaders
  let vertex ← glCreateShader B .GL_VERTEX_SHADER
  glShaderSource B vertex vertexCode
  glCompileShader B vertex
  Shader.checkCompileErrors B vertex "VERTEX"
  let fragment ← glCreateShader B .GL_FRAGMENT_SHADER
  glShaderSource B fragment fragmentCode
  glCompileShader B fragment
  Shader.checkCompileErrors B fragment "FRAGMENT"
  -- shader program
  let ID ← glCreateProgram B
  glAttachShader B ID vertex
  glAttachShader B ID fragment
  glLinkProgram B ID
  Shader.checkCompileErrors B ID "PROGRAM"
  let success ← glGetProgramiv B ID
  if success = 0 then
    let infoLog ← glGetProgramInfoLog B ID 512
    cout (LogEntry.linkingFailed infoLog)
  glDeleteShader B vertex
  glDeleteShader B fragment
  pure { ID := ID }

/-- Lines 83-86, `Shader::use()`. -/
def Shader.use (U : GLUniform ω) (self : Shader) : Stmt ω Unit :=
  glUseProgram U self.ID

/-- Lines 88-91, `Shader::setBool(name, value)`; `(int)value` is 1 or 0. -/
def Shader.setBool (U : GLUniform ω) (self : Shader) (name : String) (value : Bool) :
    Stmt ω Unit := do
  let location ← glGetUniformLocation U self.ID name
  glUniform1i U location (if value then 1 else 0)

/-- Lines 93-96, `Shader::setInt(name, value)`. -/
def Shader.setInt (U : GLUniform ω) (self : Shader) (name : String) (value : Int) :
    Stmt ω Unit := do
  let location ← glGetUniformLocation U self.ID name
  glUniform1i U location value

/-- Lines 98-101, `Shader::setFloat(name, value)`. -/
def Shader.setFloat (U : GLUniform ω) (self : Shader) (name : String) (value : GLfloat) :
    Stmt ω Unit := do
  let location ← glGetUniformLocation U self.ID name
  glUniform1f U location value

end shader

/-! ## Assertions on statements -/

/-- Holds when, from every environment state, the result, the calls and the
output of `m` satisfy `Q`. -/
def Stmt.Sat {ω α : Type} (m : Stmt ω α)
    (Q : Except IosFailure α → List Call → List LogEntry → Prop) : Prop :=
  ∀ e, Q (m e).result (m e).calls (m e).out

/-! ## Reading a call sequence and an output -/

/-- Units created: the `glCreateShader` calls, with type and returned name. -/
def createdShaders (cs : List Call) : List (ShaderType × Nat) :=
  cs.filterMap fun c => match c with
    | .glCreateShader type ret => some (type, ret)
    | _ => none

/-- Sources submitted: the `glShaderSource` calls, with unit and source. -/
def shaderSources (cs : List Call) : List (Nat × String) :=
  cs.filterMap fun c => match c with
    | .glShaderSource shader source => some (shader, source)
    | _ => none

/-- Units whose compilation was requested. -/
def compileRequests (cs : List Call) : List Nat :=
  cs.filterMap fun c => match c with
    | .glCompileShader shader => some shader
    | _ => none

/-- Compile-status queries, with unit and the status reported. -/
def compileStatusQueries (cs : List Call) : List (Nat × Int) :=
  cs.filterMap fun c => match c with
    | .glGetShaderiv shader success => some (shader, success)
    | _ => none

/-- Unit diagnostics fetched: unit, buffer size, text. -/
def shaderLogFetches (cs : List Call) : List (Nat × Nat × String) :=
  cs.filterMap fun c => match c with
    | .glGetShaderInfoLog shader bufSize infoLog => some (shader, bufSize, infoLog)
    | _ => none

/-- Programs created: the names returned by `glCreateProgram`. -/
def createdPrograms (cs : List Call) : List Nat :=
  cs.filterMap fun c => match c with
    | .glCreateProgram ret => some ret
    | _ => none

/-- Attach requests, with program and unit. -/
def attachRequests (cs : List Call) : List (Nat × Nat) :=
  cs.filterMap fun c => match c with
    | .glAttachShader program shader => some (program, shader)
    | _ => none

/-- Programs whose link was requested. -/
def linkRequests (cs : List Call) : List Nat :=
  cs.filterMap fun c => match c with
    | .glLinkProgram program => some program
    | _ => none

/-- Link-status queries, with program and the status reported. -/
def linkStatusQueries (cs : List Call) : List (Nat × Int) :=
  cs.filterMap fun c => match c with
    | .glGetProgramiv program success => some (program, success)
    | _ => none

/-- Program diagnostics fetched: program, buffer size, text. -/
def programLogFetches (cs : List Call) : List (Nat × Nat × String) :=
  cs.filterMap fun c => match c with
    | .glGetProgramInfoLog program bufSize infoLog => some (program, bufSize, infoLog)
    | _ => none

/-- Units released: the arguments of the `glDeleteShader` calls. -/
def deletedShaders (cs : List Call) : List Nat :=
  cs.filterMap fun c => match c with
    | .glDeleteShader shader => some shader
    | _ => none

/-- Programs released: the arguments of the `glDeleteProgram` calls. -/
def deletedPrograms (cs : List Call) : List Nat :=
  cs.filterMap fun c => match c with
    | .glDeleteProgram program => some program
    | _ => none

/-- Files the run tried to open, in order. -/
def openedFiles (cs : List Call) : List String :=
  cs.filterMap fun c => match c with
    | .fileOpen path _ => some path
    | _ => none

/-- A file that could not be opened. -/
def Call.openFailure : Call → Bool
  | .fileOpen _ good => !good
  | _ => false

/-- A file that could not be read: the transfer was ended by a read error. -/
def Call.readFailure : Call → Bool
  | .fileRdbuf _ _ ioError => ioError
  | _ => false

/-- A file that could not be closed. -/
def Call.closeFailure : Call → Bool
  | .fileClose _ good => !good
  | _ => false

/-- A status query (compile or link) that the driver answered with failure. -/
def Call.statusFailure : Call → Bool
  | .glGetShaderiv _ success => decide (success = 0)
  | .glGetProgramiv _ success => decide (success = 0)
  | _ => false

/-- Entries of line 116. -/
def LogEntry.isCompilationError : LogEntry → Bool
  | .compilationError _ _ => true
  | _ => false

/-- Entries of lines 125 and 75. -/
def LogEntry.isLinkError : LogEntry → Bool
  | .programLinkingError _ _ => true
  | .linkingFailed _ => true
  | _ => false

/-- Texts transferred by the `stream << file.rdbuf()` statements, in order. -/
def transferredTexts (cs : List Call) : List String :=
  cs.filterMap fun c => match c with
    | .fileRdbuf _ text _ => some text
    | _ => none

/-- A call that made the `try` block throw: a failed open or a failed close. -/
def Call.raisedFailure (c : Call) : Bool :=
  c.openFailure || c.closeFailure

/-! ## The shape of a run of the constructor

The calls and the output of a run, written as a function of the answers the
run received.  `ctor_run` below proves that every run has this shape. -/

/-- Answers of the file system along one run of lines 27-46.  An answer to a
call that the run does not reach is not looked at. -/
structure ReadAnswers where
  vOpen : Bool
  fOpen : Bool
  vText : String
  vError : Bool
  fText : String
  fError : Bool
  vClose : Bool
  fClose : Bool

/-- Whether no exception left the `try` block. -/
def ReadAnswers.completed (a : ReadAnswers) : Bool :=
  a.vOpen && a.fOpen && a.vClose && a.fClose

/-- File-system calls of a run with these answers. -/
def ReadAnswers.calls (vertexPath fragmentPath : String) (a : ReadAnswers) : List Call :=
  Call.fileOpen vertexPath a.vOpen ::
    if a.vOpen then
      Call.fileOpen fragmentPath a.fOpen ::
        if a.fOpen then
          Call.fileRdbuf vertexPath a.vText a.vError ::
          Call.fileRdbuf fragmentPath a.fText a.fError ::
          Call.fileClose vertexPath a.vClose ::
            if a.vClose then [Call.fileClose fragmentPath a.fClose] else []
        else []
    else []

/-- Value of `vertexCode` after the `try` statement. -/
def ReadAnswers.vertexCode (a : ReadAnswers) : String :=
  if a.completed then a.vText else ""

/-- Value of `fragmentCode` after the `try` statement. -/
def ReadAnswers.fragmentCode (a : ReadAnswers) : String :=
  if a.completed then a.fText else ""

/-- Output of the `try` statement. -/
def ReadAnswers.out (a : ReadAnswers) : List LogEntry :=
  if a.completed then [] else [LogEntry.fileNotRead]

/-- Answers of the driver along one run of lines 50-80.  A diagnostic text
that the run does not fetch is not looked at. -/
structure BuildAnswers where
  vertex : Nat
  vSuccess : Int
  vInfoLog : String
  fragment : Nat
  fSuccess : Int
  fInfoLog : String
  ID : Nat
  success1 : Int
  infoLog1 : String
  success2 : Int
  infoLog2 : String

/-- Driver calls of lines 55-76 with these answers, given the two sources. -/
def BuildAnswers.callsToLink (vertexCode fragmentCode : String) (b : BuildAnswers) :
    List Call :=
  [Call.glCreateShader .GL_VERTEX_SHADER b.vertex,
   Call.glShaderSource b.vertex vertexCode,
   Call.glCompileShader b.vertex,
   Call.glGetShaderiv b.vertex b.vSuccess]
  ++ (if b.vSuccess = 0 then [Call.glGetShaderInfoLog b.vertex 1024 b.vInfoLog] else [])
  ++ [Call.glCreateShader .GL_FRAGMENT_SHADER b.fragment,
      Call.glShaderSource b.fragment fragmentCode,
      Call.glCompileShader b.fragment,
      Call.glGetShaderiv b.fragment b.fSuccess]
  ++ (if b.fSuccess = 0 then [Call.glGetShaderInfoLog b.fragment 1024 b.fInfoLog] else [])
  ++ [Call.glCreateProgram b.ID,
      Call.glAttachShader b.ID b.vertex,
      Call.glAttachShader b.ID b.fragment,
      Call.glLinkProgram b.ID,
      Call.glGetProgramiv b.ID b.success1]
  ++ (if b.success1 = 0 then [Call.glGetProgramInfoLog b.ID 1024 b.infoLog1] else [])
  ++ [Call.glGetProgramiv b.ID b.success2]
  ++ (if b.success2 = 0 then [Call.glGetProgramInfoLog b.ID 512 b.infoLog2] else [])

/-- Driver calls of lines 55-80 with these answers, given the two sources. -/
def BuildAnswers.calls (vertexCode fragmentCode : String) (b : BuildAnswers) : List Call :=
  b.callsToLink vertexCode fragmentCode
  ++ [Call.glDeleteShader b.vertex, Call.glDeleteShader b.fragment]

/-- Output of lines 50-80 with these answers. -/
def BuildAnswers.out (b : BuildAnswers) : List LogEntry :=
  (if b.vSuccess = 0 then [LogEntry.compilationError "VERTEX" b.vInfoLog] else [])
  ++ (if b.fSuccess = 0 then [LogEntry.compilationError "FRAGMENT" b.fInfoLog] else [])
  ++ (if b.success1 = 0 then [LogEntry.programLinkingError "PROGRAM" b.infoLog1] else [])
  ++ (if b.success2 = 0 then [LogEntry.linkingFailed b.infoLog2] else [])

/-! ## A sample environment

A small stateless environment on which the class can be run on concrete
inputs. -/

/-- A file system with two shader files and one directory.  The directory
opens (as `open(2)` does for `O_RDONLY`), but reading it fails at once;
any other path does not open. -/
def sampleFS : FileSystem Unit where
  fileOpen path e :=
    (path = "shader.vs" || path = "shader.fs" || path = "shaders", e)
  fileRdbuf path e :=
    (if path = "shader.vs" then ("#version 330 core // vertex stage", false)
     else if path = "shader.fs" then ("#version 330 core // fragment stage", false)
     else ("", true), e)
  fileClose _ e := (true, e)

/-- A driver that names the vertex unit 1, the fragment unit 2 and the
program 3, and reports the given compile and link status for every object. -/
def sampleGL (compileStatus linkStatus : Int) : GLBuild Unit where
  glCreateShader type e :=
    (match type with
     | .GL_VERTEX_SHADER => 1
     | .GL_FRAGMENT_SHADER => 2, e)
  glShaderSource _ _ e := e
  glCompileShader _ e := e
  glGetShaderiv _ e := (compileStatus, e)
  glGetShaderInfoLog _ _ e := ("0:1(1): error: unexpected token", e)
  glCreateProgram e := (3, e)
  glAttachShader _ _ e := e
  glLinkProgram _ e := e
  glGetProgramiv _ e := (linkStatus, e)
  glGetProgramInfoLog _ _ e := ("error: linking with uncompiled shader", e)
  glDeleteShader _ e := e

/-! ## A driver model for uniform uploads -/

/-- Modelled from the spec: a value held by a uniform, as uploaded by
`glUniform1i` or `glUniform1f`. -/
inductive UniformValue
  | int (v : Int)
  | float (v : GLfloat)
  deriving DecidableEq, Repr

/-- Modelled from the spec: the driver state that `glUseProgram`,
`glGetUniformLocation`, `glUniform1i` and `glUniform1f` act on.  The driver is
an external collaborator of the class; the spec says of it that activating a
successfully linked program makes subsequent uniform uploads target the
state of that program, and that a name that matches no uniform is a silent
no-op. -/
structure GLState where
  /-- Programs whose last link succeeded. -/
  linked : Nat → Bool
  /-- Names of the uniforms of each program; the location of a uniform is its
  position in this list. -/
  uniforms : Nat → List String
  /-- The active program, 0 when there is none. -/
  current : Nat
  /-- Uniform state: per program and location, the value last uploaded. -/
  value : Nat → Int → Option UniformValue

/-- Modelled from the spec: location of `name` in `program`, -1 when the
program is not linked or has no uniform of that name. -/
def GLState.location (g : GLState) (program : Nat) (name : String) : Int :=
  if g.linked program = true ∧ name ∈ g.uniforms program then
    ((g.uniforms program).indexOf name : Nat)
  else -1

/-- Modelled from the spec: an upload writes to the uniform state of the
active program.  It is ignored when there is no active program or when
`location` is not a location of the active program (in particular -1). -/
def GLState.upload (g : GLState) (location : Int) (v : UniformValue) : GLState :=
  if g.current ≠ 0 ∧ 0 ≤ location ∧ location < (g.uniforms g.current).length then
    { g with value := fun p l =>
        if p = g.current ∧ l = location then some v else g.value p l }
  else g

/-- Modelled from the spec: the uniform entry points of the driver.
`glUseProgram` makes a successfully linked program the active one (0 removes
the active program; any other name is rejected and changes nothing). -/
def refGL : GLUniform GLState where
  glUseProgram program g :=
    if program = 0 ∨ g.linked program = true then { g with current := program } else g
  glGetUniformLocation program name g := (g.location program name, g)
  glUniform1i location v0 g := g.upload location (UniformValue.int v0)
  glUniform1f location v0 g := g.upload location (UniformValue.float v0)

/-- Modelled from the spec: value of the uniform `name` of `program` in the
driver state. -/
def GLState.uniformValue (g : GLState) (program : Nat) (name : String) :
    Option UniformValue :=
  g.value program (g.location program name)

/-- A driver state with two linked programs, 3 and 7, and no upload yet. -/
def sampleState : GLState where
  linked p := p = 3 || p = 7
  uniforms p := if p = 3 then ["mixValue", "useTexture"] else if p = 7 then ["mixValue"] else []
  current := 7
  value _ _ := none

/-! # Theorems -/

/-! ## Reasoning about statements -/

section logic
variable {ω α β : Type}

theorem sat_pure (a : α) (Q : Except IosFailure α → List Call → List LogEntry → Prop)
    (h : Q (.ok a) [] []) : Stmt.Sat (Pure.pure a : Stmt ω α) Q :=
  fun _ => h

theorem sat_throw (x : IosFailure)
    (Q : Except IosFailure α → List Call → List LogEntry → Prop)
    (h : Q (.error x) [] []) : Stmt.Sat (MonadExcept.throw x : Stmt ω α) Q :=
  fun _ => h

theorem sat_cout (entry : LogEntry)
    (Q : Except IosFailure Unit → List Call → List LogEntry → Prop)
    (h : Q (.ok ()) [] [entry]) : Stmt.Sat (ShaderModel.cout entry : Stmt ω Unit) Q :=
  fun _ => h

theorem sat_call (ask : ω → α × ω) (record : α → Call)
    (Q : Except IosFailure α → List Call → List LogEntry → Prop)
    (h : ∀ a, Q (.ok a) [record a] []) : Stmt.Sat (Stmt.call ask record) Q :=
  fun e => h (ask e).1

theorem sat_bind (m : Stmt ω α) (f : α → Stmt ω β)
    (Q : Except IosFailure β → List Call → List LogEntry → Prop)
    (h : Stmt.Sat m (fun r cs os =>
      match r with
      | .error x => Q (.error x) cs os
      | .ok a => Stmt.Sat (f a) (fun r2 cs2 os2 => Q r2 (cs ++ cs2) (os ++ os2)))) :
    Stmt.Sat (m >>= f) Q := by
  intro e
  have h1 := h e
  show Q (Stmt.seq m f e).result (Stmt.seq m f e).calls (Stmt.seq m f e).out
  unfold Stmt.seq
  cases hr : (m e).result with
  | error x => simp only [hr] at h1 ⊢; exact h1
  | ok a => simp only [hr] at h1 ⊢; exact h1 _

theorem sat_tryCatch (m : Stmt ω α) (f : IosFailure → Stmt ω α)
    (Q : Except IosFailure α → List Call → List LogEntry → Prop)
    (h : Stmt.Sat m (fun r cs os =>
      match r with
      | .ok a => Q (.ok a) cs os
      | .error x => Stmt.Sat (f x) (fun r2 cs2 os2 => Q r2 (cs ++ cs2) (os ++ os2)))) :
    Stmt.Sat (tryCatch m f) Q := by
  intro e
  have h1 := h e
  show Q (Stmt.handle m f e).result (Stmt.handle m f e).calls (Stmt.handle m f e).out
  unfold Stmt.handle
  cases hr : (m e).result with
  | error x => simp only [hr] at h1 ⊢; exact h1 _
  | ok a => simp only [hr] at h1 ⊢; exact h1

theorem sat_ite (c : Prop) [Decidable c] (m n : Stmt ω α)
    (Q : Except IosFailure α → List Call → List LogEntry → Prop)
    (h1 : c → Stmt.Sat m Q) (h2 : ¬ c → Stmt.Sat n Q) :
    Stmt.Sat (if c then m else n) Q := by
  by_cases hc : c
  · simpa [hc] using h1 hc
  · simpa [hc] using h2 hc

theorem sat_mono (m : Stmt ω α)
    (P Q : Except IosFailure α → List Call → List LogEntry → Prop)
    (h : Stmt.Sat m P) (hPQ : ∀ r cs os, P r cs os → Q r cs os) : Stmt.Sat m Q :=
  fun e => hPQ _ _ _ (h e)

/-- Sequencing after a statement that is known to complete normally. -/
theorem sat_bind_ok (m : Stmt ω α) (f : α → Stmt ω β)
    (P : α → List Call → List LogEntry → Prop)
    (Q : Except IosFailure β → List Call → List LogEntry → Prop)
    (hm : Stmt.Sat m (fun r cs os => ∃ a, r = .ok a ∧ P a cs os))
    (hf : ∀ a cs os, P a cs os →
      Stmt.Sat (f a) (fun r2 cs2 os2 => Q r2 (cs ++ cs2) (os ++ os2))) :
    Stmt.Sat (m >>= f) Q := by
  apply sat_bind
  refine sat_mono m _ _ hm ?_
  rintro r cs os ⟨a, rfl, hP⟩
  exact hf a cs os hP

end logic

section rules
variable {ω : Type}

theorem sat_ifstreamOpen (F : FileSystem ω) (path : String)
    (Q : Except IosFailure Unit → List Call → List LogEntry → Prop)
    (h : ∀ good : Bool,
      Q (if good then .ok () else .error .failure) [Call.fileOpen path good] []) :
    Stmt.Sat (ShaderModel.ifstreamOpen F true path) Q := by
  intro e
  have := h (F.fileOpen path e).1
  cases hg : (F.fileOpen path e).1 <;>
    simpa [ShaderModel.ifstreamOpen, setstateFailbit, Bind.bind, Stmt.seq, Stmt.call, hg,
      MonadExcept.throw, throwThe, Stmt.raise, Pure.pure, Stmt.ret] using this

theorem sat_ifstreamClose (F : FileSystem ω) (path : String)
    (Q : Except IosFailure Unit → List Call → List LogEntry → Prop)
    (h : ∀ good : Bool,
      Q (if good then .ok () else .error .failure) [Call.fileClose path good] []) :
    Stmt.Sat (ShaderModel.ifstreamClose F true path) Q := by
  intro e
  have := h (F.fileClose path e).1
  cases hg : (F.fileClose path e).1 <;>
    simpa [ShaderModel.ifstreamClose, setstateFailbit, Bind.bind, Stmt.seq, Stmt.call, hg,
      MonadExcept.throw, throwThe, Stmt.raise, Pure.pure, Stmt.ret] using this

theorem sat_insertRdbuf (F : FileSystem ω) (path : String)
    (Q : Except IosFailure String → List Call → List LogEntry → Prop)
    (h : ∀ (text : String) (ioError : Bool),
      Q (.ok text) [Call.fileRdbuf path text ioError] []) :
    Stmt.Sat (ShaderModel.insertRdbuf F false path) Q := by
  intro e
  have := h (F.fileRdbuf path e).1.1 (F.fileRdbuf path e).1.2
  by_cases hc : ((F.fileRdbuf path e).1.2 || (F.fileRdbuf path e).1.1.isEmpty) = true <;>
    simpa [ShaderModel.insertRdbuf, setstateFailbit, Bind.bind, Stmt.seq, Stmt.call, hc,
      Pure.pure, Stmt.ret] using this


theorem sat_checkCompileErrors_shader (B : GLBuild ω) (shader : Nat) (type : String)
    (htype : type ≠ "PROGRAM")
    (Q : Except IosFailure Unit → List Call → List LogEntry → Prop)
    (h : ∀ (success : Int) (infoLog : String),
      Q (.ok ())
        (Call.glGetShaderiv shader success ::
          if success = 0 then [Call.glGetShaderInfoLog shader 1024 infoLog] else [])
        (if success = 0 then [LogEntry.compilationError type infoLog] else [])) :
    Stmt.Sat (Shader.checkCompileErrors B shader type) Q := by
  intro e
  have := h (B.glGetShaderiv shader e).1
    (B.glGetShaderInfoLog shader 1024 (B.glGetShaderiv shader e).2).1
  by_cases hs : (B.glGetShaderiv shader e).1 = 0 <;>
    simpa [Shader.checkCompileErrors, htype, Bind.bind, Stmt.seq, Stmt.call, hs,
      ShaderModel.glGetShaderiv, ShaderModel.glGetShaderInfoLog, ShaderModel.cout,
      Pure.pure, Stmt.ret] using this

theorem sat_checkCompileErrors_program (B : GLBuild ω) (program : Nat)
    (Q : Except IosFailure Unit → List Call → List LogEntry → Prop)
    (h : ∀ (success : Int) (infoLog : String),
      Q (.ok ())
        (Call.glGetProgramiv program success ::
          if success = 0 then [Call.glGetProgramInfoLog program 1024 infoLog] else [])
        (if success = 0 then [LogEntry.programLinkingError "PROGRAM" infoLog] else [])) :
    Stmt.Sat (Shader.checkCompileErrors B program "PROGRAM") Q := by
  intro e
  have := h (B.glGetProgramiv program e).1
    (B.glGetProgramInfoLog program 1024 (B.glGetProgramiv program e).2).1
  by_cases hs : (B.glGetProgramiv program e).1 = 0 <;>
    simpa [Shader.checkCompileErrors, Bind.bind, Stmt.seq, Stmt.call, hs,
      ShaderModel.glGetProgramiv, ShaderModel.glGetProgramInfoLog, ShaderModel.cout,
      Pure.pure, Stmt.ret] using this

end rules

/-! ## Every run of the constructor has the shape of `ReadAnswers` and `BuildAnswers` -/

theorem ctor_sat {ω : Type} (F : FileSystem ω) (B : GLBuild ω)
    (vertexPath fragmentPath : String) :
    Stmt.Sat (Shader.new F B vertexPath fragmentPath) (fun r cs os =>
      ∃ (a : ReadAnswers) (b : BuildAnswers),
        r = .ok { ID := b.ID } ∧
        cs = a.calls vertexPath fragmentPath ++ b.calls a.vertexCode a.fragmentCode ∧
        os = a.out ++ b.out) := by
  unfold Shader.new
  dsimp only
  refine sat_bind_ok _ _ (fun r cs os => ∃ a : ReadAnswers,
    r = ⟨(), a.fragmentCode, a.vertexCode⟩ ∧ cs = a.calls vertexPath fragmentPath ∧
      os = a.out) _ ?_ ?_
  · -- lines 27-46
    apply sat_tryCatch
    refine sat_bind _ _ _ (sat_ifstreamOpen F _ _ ?_)
    intro vOpen
    cases vOpen
    · simp only [Bool.false_eq_true, if_false]
      refine sat_bind _ _ _ (sat_cout _ _ ?_)
      dsimp only
      apply sat_pure
      exact ⟨_, rfl, ⟨false, false, "", false, "", false, false, false⟩, rfl, rfl, rfl⟩
    simp only [if_true]
    refine sat_bind _ _ _ (sat_ifstreamOpen F _ _ ?_)
    intro fOpen
    cases fOpen
    · simp only [Bool.false_eq_true, if_false]
      refine sat_bind _ _ _ (sat_cout _ _ ?_)
      dsimp only
      apply sat_pure
      exact ⟨_, rfl, ⟨true, false, "", false, "", false, false, false⟩, rfl, rfl, rfl⟩
    simp only [if_true]
    refine sat_bind _ _ _ (sat_insertRdbuf F _ _ ?_)
    intro vText vError
    dsimp only
    refine sat_bind _ _ _ (sat_insertRdbuf F _ _ ?_)
    intro fText fError
    dsimp only
    refine sat_bind _ _ _ (sat_ifstreamClose F _ _ ?_)
    intro vClose
    cases vClose
    · simp only [Bool.false_eq_true, if_false]
      refine sat_bind _ _ _ (sat_cout _ _ ?_)
      dsimp only
      apply sat_pure
      exact ⟨_, rfl, ⟨true, true, vText, vError, fText, fError, false, false⟩, rfl, rfl, rfl⟩
    simp only [if_true]
    refine sat_bind _ _ _ (sat_ifstreamClose F _ _ ?_)
    intro fClose
    cases fClose
    · simp only [Bool.false_eq_true, if_false]
      refine sat_bind _ _ _ (sat_cout _ _ ?_)
      dsimp only
      apply sat_pure
      exact ⟨_, rfl, ⟨true, true, vText, vError, fText, fError, true, false⟩, rfl, rfl, rfl⟩
    simp only [if_true]
    refine sat_bind _ _ _ (sat_pure _ _ ?_)
    dsimp only
    apply sat_pure
    exact ⟨_, rfl, ⟨true, true, vText, vError, fText, fError, true, true⟩, rfl, rfl, rfl⟩
  · -- lines 50-80
    rintro _ _ _ ⟨a, rfl, rfl, rfl⟩
    dsimp only [glCreateShader, glShaderSource, glCompileShader, glCreateProgram,
      glAttachShader, glLinkProgram, glGetProgramiv, glGetProgramInfoLog, glDeleteShader]
    refine sat_bind _ _ _ (sat_pure _ _ ?_)
    dsimp only
    refine sat_bind _ _ _ (sat_call _ _ _ ?_)
    intro vertex
    dsimp only
    refine sat_bind _ _ _ (sat_call _ _ _ ?_)
    intro _
    dsimp only
    refine sat_bind _ _ _ (sat_call _ _ _ ?_)
    intro _
    dsimp only
    refine sat_bind _ _ _ (sat_checkCompileErrors_shader B _ _ (by decide) _ ?_)
    intro vSuccess vInfoLog
    dsimp only
    refine sat_bind _ _ _ (sat_call _ _ _ ?_)
    intro fragment
    dsimp only
    refine sat_bind _ _ _ (sat_call _ _ _ ?_)
    intro _
    dsimp only
    refine sat_bind _ _ _ (sat_call _ _ _ ?_)
    intro _
    dsimp only
    refine sat_bind _ _ _ (sat_checkCompileErrors_shader B _ _ (by decide) _ ?_)
    intro fSuccess fInfoLog
    dsimp only
    refine sat_bind _ _ _ (sat_call _ _ _ ?_)
    intro ID
    dsimp only
    refine sat_bind _ _ _ (sat_call _ _ _ ?_)
    intro _
    dsimp only
    refine sat_bind _ _ _ (sat_call _ _ _ ?_)
    intro _
    dsimp only
    refine sat_bind _ _ _ (sat_call _ _ _ ?_)
    intro _
    dsimp only
    refine sat_bind _ _ _ (sat_checkCompileErrors_program B _ _ ?_)
    intro success1 infoLog1
    dsimp only
    refine sat_bind _ _ _ (sat_call _ _ _ ?_)
    intro success2
    dsimp only
    apply sat_ite <;> intro hs
    · refine sat_bind _ _ _ (sat_call _ _ _ ?_)
      intro infoLog2
      dsimp only
      refine sat_bind _ _ _ (sat_cout _ _ ?_)
      dsimp only
      refine sat_bind _ _ _ (sat_call _ _ _ ?_)
      intro _
      dsimp only
      refine sat_bind _ _ _ (sat_call _ _ _ ?_)
      intro _
      dsimp only
      apply sat_pure
      exact ⟨a, ⟨vertex, vSuccess, vInfoLog, fragment, fSuccess, fInfoLog, ID,
        success1, infoLog1, success2, infoLog2⟩, rfl,
        by simp [BuildAnswers.calls, BuildAnswers.callsToLink, hs], by simp [BuildAnswers.out, hs]⟩
    · refine sat_bind _ _ _ (sat_pure _ _ ?_)
      dsimp only
      refine sat_bind _ _ _ (sat_call _ _ _ ?_)
      intro _
      dsimp only
      refine sat_bind _ _ _ (sat_call _ _ _ ?_)
      intro _
      dsimp only
      apply sat_pure
      exact ⟨a, ⟨vertex, vSuccess, vInfoLog, fragment, fSuccess, fInfoLog, ID,
        success1, infoLog1, success2, ""⟩, rfl,
        by simp [BuildAnswers.calls, BuildAnswers.callsToLink, hs], by simp [BuildAnswers.out, hs]⟩

/-- Every run of the constructor completes normally, and its calls and its
output are those of `ReadAnswers.calls`, `BuildAnswers.calls`,
`ReadAnswers.out` and `BuildAnswers.out` for the answers it received. -/
theorem ctor_run {ω : Type} (F : FileSystem ω) (B : GLBuild ω)
    (vertexPath fragmentPath : String) (e : ω) :
    ∃ (a : ReadAnswers) (b : BuildAnswers),
      (Shader.new F B vertexPath fragmentPath e).result = .ok { ID := b.ID } ∧
      (Shader.new F B vertexPath fragmentPath e).calls =
        a.calls vertexPath fragmentPath ++ b.calls a.vertexCode a.fragmentCode ∧
      (Shader.new F B vertexPath fragmentPath e).out = a.out ++ b.out :=
  ctor_sat F B vertexPath fragmentPath e

/-! ## Reading the shape -/

/-- The calls of lines 27-46 are file calls only. -/
theorem read_observed (vp fp : String) (a : ReadAnswers) :
    createdShaders (a.calls vp fp) = [] ∧
    shaderSources (a.calls vp fp) = [] ∧
    compileRequests (a.calls vp fp) = [] ∧
    compileStatusQueries (a.calls vp fp) = [] ∧
    shaderLogFetches (a.calls vp fp) = [] ∧
    createdPrograms (a.calls vp fp) = [] ∧
    attachRequests (a.calls vp fp) = [] ∧
    linkRequests (a.calls vp fp) = [] ∧
    linkStatusQueries (a.calls vp fp) = [] ∧
    programLogFetches (a.calls vp fp) = [] ∧
    deletedShaders (a.calls vp fp) = [] ∧
    deletedPrograms (a.calls vp fp) = [] := by
  obtain ⟨vo, fo, vt, ve, ft, fe, vc, fc⟩ := a
  cases vo <;> cases fo <;> cases vc <;>
    simp [createdShaders, shaderSources, compileRequests, compileStatusQueries,
      shaderLogFetches, createdPrograms, attachRequests, linkRequests, linkStatusQueries,
      programLogFetches, deletedShaders, deletedPrograms, ReadAnswers.calls]

theorem createdShaders_toLink (vc fc : String) (b : BuildAnswers) :
    createdShaders (b.callsToLink vc fc) =
      [(ShaderType.GL_VERTEX_SHADER, b.vertex),
        (ShaderType.GL_FRAGMENT_SHADER, b.fragment)] := by
  simp only [createdShaders, BuildAnswers.callsToLink]
  split_ifs <;> simp

theorem shaderSources_toLink (vc fc : String) (b : BuildAnswers) :
    shaderSources (b.callsToLink vc fc) =
      [(b.vertex, vc), (b.fragment, fc)] := by
  simp only [shaderSources, BuildAnswers.callsToLink]
  split_ifs <;> simp

theorem compileRequests_toLink (vc fc : String) (b : BuildAnswers) :
    compileRequests (b.callsToLink vc fc) =
      [b.vertex, b.fragment] := by
  simp only [compileRequests, BuildAnswers.callsToLink]
  split_ifs <;> simp

theorem compileStatusQueries_toLink (vc fc : String) (b : BuildAnswers) :
    compileStatusQueries (b.callsToLink vc fc) =
      [(b.vertex, b.vSuccess), (b.fragment, b.fSuccess)] := by
  simp only [compileStatusQueries, BuildAnswers.callsToLink]
  split_ifs <;> simp

theorem shaderLogFetches_toLink (vc fc : String) (b : BuildAnswers) :
    shaderLogFetches (b.callsToLink vc fc) =
      (if b.vSuccess = 0 then [(b.vertex, 1024, b.vInfoLog)] else []) ++
        (if b.fSuccess = 0 then [(b.fragment, 1024, b.fInfoLog)] else []) := by
  simp only [shaderLogFetches, BuildAnswers.callsToLink]
  split_ifs <;> simp

theorem createdPrograms_toLink (vc fc : String) (b : BuildAnswers) :
    createdPrograms (b.callsToLink vc fc) =
      [b.ID] := by
  simp only [createdPrograms, BuildAnswers.callsToLink]
  split_ifs <;> simp

theorem attachRequests_toLink (vc fc : String) (b : BuildAnswers) :
    attachRequests (b.callsToLink vc fc) =
      [(b.ID, b.vertex), (b.ID, b.fragment)] := by
  simp only [attachRequests, BuildAnswers.callsToLink]
  split_ifs <;> simp

theorem linkRequests_toLink (vc fc : String) (b : BuildAnswers) :
    linkRequests (b.callsToLink vc fc) =
      [b.ID] := by
  simp only [linkRequests, BuildAnswers.callsToLink]
  split_ifs <;> simp

theorem linkStatusQueries_toLink (vc fc : String) (b : BuildAnswers) :
    linkStatusQueries (b.callsToLink vc fc) =
      [(b.ID, b.success1), (b.ID, b.success2)] := by
  simp only [linkStatusQueries, BuildAnswers.callsToLink]
  split_ifs <;> simp

theorem programLogFetches_toLink (vc fc : String) (b : BuildAnswers) :
    programLogFetches (b.callsToLink vc fc) =
      (if b.success1 = 0 then [(b.ID, 1024, b.infoLog1)] else []) ++
        (if b.success2 = 0 then [(b.ID, 512, b.infoLog2)] else []) := by
  simp only [programLogFetches, BuildAnswers.callsToLink]
  split_ifs <;> simp

theorem deletedShaders_toLink (vc fc : String) (b : BuildAnswers) :
    deletedShaders (b.callsToLink vc fc) =
      [] := by
  simp only [deletedShaders, BuildAnswers.callsToLink]
  split_ifs <;> simp

theorem deletedPrograms_toLink (vc fc : String) (b : BuildAnswers) :
    deletedPrograms (b.callsToLink vc fc) =
      [] := by
  simp only [deletedPrograms, BuildAnswers.callsToLink]
  split_ifs <;> simp

/-- What the calls up to the last status check contain, by kind. -/
theorem pre_observed (vp fp vc fc : String) (a : ReadAnswers) (b : BuildAnswers) :
    createdShaders (a.calls vp fp ++ b.callsToLink vc fc) =
      [(ShaderType.GL_VERTEX_SHADER, b.vertex),
        (ShaderType.GL_FRAGMENT_SHADER, b.fragment)] ∧
    shaderSources (a.calls vp fp ++ b.callsToLink vc fc) =
      [(b.vertex, vc), (b.fragment, fc)] ∧
    compileRequests (a.calls vp fp ++ b.callsToLink vc fc) =
      [b.vertex, b.fragment] ∧
    compileStatusQueries (a.calls vp fp ++ b.callsToLink vc fc) =
      [(b.vertex, b.vSuccess), (b.fragment, b.fSuccess)] ∧
    shaderLogFetches (a.calls vp fp ++ b.callsToLink vc fc) =
      (if b.vSuccess = 0 then [(b.vertex, 1024, b.vInfoLog)] else []) ++
        (if b.fSuccess = 0 then [(b.fragment, 1024, b.fInfoLog)] else []) ∧
    createdPrograms (a.calls vp fp ++ b.callsToLink vc fc) =
      [b.ID] ∧
    attachRequests (a.calls vp fp ++ b.callsToLink vc fc) =
      [(b.ID, b.vertex), (b.ID, b.fragment)] ∧
    linkRequests (a.calls vp fp ++ b.callsToLink vc fc) =
      [b.ID] ∧
    linkStatusQueries (a.calls vp fp ++ b.callsToLink vc fc) =
      [(b.ID, b.success1), (b.ID, b.success2)] ∧
    programLogFetches (a.calls vp fp ++ b.callsToLink vc fc) =
      (if b.success1 = 0 then [(b.ID, 1024, b.infoLog1)] else []) ++
        (if b.success2 = 0 then [(b.ID, 512, b.infoLog2)] else []) ∧
    deletedShaders (a.calls vp fp ++ b.callsToLink vc fc) =
      [] ∧
    deletedPrograms (a.calls vp fp ++ b.callsToLink vc fc) =
      [] := by
  obtain ⟨h1, h2, h3, h4, h5, h6, h7, h8, h9, h10, h11, h12⟩ := read_observed vp fp a
  have g1 := createdShaders_toLink vc fc b
  have g2 := shaderSources_toLink vc fc b
  have g3 := compileRequests_toLink vc fc b
  have g4 := compileStatusQueries_toLink vc fc b
  have g5 := shaderLogFetches_toLink vc fc b
  have g6 := createdPrograms_toLink vc fc b
  have g7 := attachRequests_toLink vc fc b
  have g8 := linkRequests_toLink vc fc b
  have g9 := linkStatusQueries_toLink vc fc b
  have g10 := programLogFetches_toLink vc fc b
  have g11 := deletedShaders_toLink vc fc b
  have g12 := deletedPrograms_toLink vc fc b
  simp only [createdShaders, shaderSources, compileRequests, compileStatusQueries,
    shaderLogFetches, createdPrograms, attachRequests, linkRequests, linkStatusQueries,
    programLogFetches, deletedShaders, deletedPrograms, List.filterMap_append] at *
  simp only [h1, h2, h3, h4, h5, h6, h7, h8, h9, h10, h11, h12, g1, g2, g3, g4, g5, g6, g7,
    g8, g9, g10, g11, g12, List.nil_append, and_self]

/-- What the calls of a whole run contain, by kind. -/
theorem run_observed (vp fp vc fc : String) (a : ReadAnswers) (b : BuildAnswers) :
    createdShaders (a.calls vp fp ++ b.calls vc fc) =
      [(ShaderType.GL_VERTEX_SHADER, b.vertex),
        (ShaderType.GL_FRAGMENT_SHADER, b.fragment)] ∧
    shaderSources (a.calls vp fp ++ b.calls vc fc) =
      [(b.vertex, vc), (b.fragment, fc)] ∧
    compileRequests (a.calls vp fp ++ b.calls vc fc) =
      [b.vertex, b.fragment] ∧
    compileStatusQueries (a.calls vp fp ++ b.calls vc fc) =
      [(b.vertex, b.vSuccess), (b.fragment, b.fSuccess)] ∧
    shaderLogFetches (a.calls vp fp ++ b.calls vc fc) =
      (if b.vSuccess = 0 then [(b.vertex, 1024, b.vInfoLog)] else []) ++
        (if b.fSuccess = 0 then [(b.fragment, 1024, b.fInfoLog)] else []) ∧
    createdPrograms (a.calls vp fp ++ b.calls vc fc) =
      [b.ID] ∧
    attachRequests (a.calls vp fp ++ b.calls vc fc) =
      [(b.ID, b.vertex), (b.ID, b.fragment)] ∧
    linkRequests (a.calls vp fp ++ b.calls vc fc) =
      [b.ID] ∧
    linkStatusQueries (a.calls vp fp ++ b.calls vc fc) =
      [(b.ID, b.success1), (b.ID, b.success2)] ∧
    programLogFetches (a.calls vp fp ++ b.calls vc fc) =
      (if b.success1 = 0 then [(b.ID, 1024, b.infoLog1)] else []) ++
        (if b.success2 = 0 then [(b.ID, 512, b.infoLog2)] else []) ∧
    deletedShaders (a.calls vp fp ++ b.calls vc fc) =
      [b.vertex, b.fragment] ∧
    deletedPrograms (a.calls vp fp ++ b.calls vc fc) =
      [] := by
  obtain ⟨h1, h2, h3, h4, h5, h6, h7, h8, h9, h10, h11, h12⟩ := pre_observed vp fp vc fc a b
  simp only [BuildAnswers.calls, ← List.append_assoc]
  simp only [createdShaders, shaderSources, compileRequests, compileStatusQueries,
    shaderLogFetches, createdPrograms, attachRequests, linkRequests, linkStatusQueries,
    programLogFetches, deletedShaders, deletedPrograms, List.filterMap_append] at *
  simp only [h1, h2, h3, h4, h5, h6, h7, h8, h9, h10, h11, h12]
  simp

/-- The entries of line 116 in the output of a run. -/
theorem out_compilationErrors (a : ReadAnswers) (b : BuildAnswers) :
    (a.out ++ b.out).filter LogEntry.isCompilationError =
      (if b.vSuccess = 0 then [LogEntry.compilationError "VERTEX" b.vInfoLog] else []) ++
        (if b.fSuccess = 0 then [LogEntry.compilationError "FRAGMENT" b.fInfoLog] else []) := by
  simp only [ReadAnswers.out, BuildAnswers.out]
  split_ifs <;> simp [LogEntry.isCompilationError]

/-- The entries of lines 125 and 75 in the output of a run. -/
theorem out_linkErrors (a : ReadAnswers) (b : BuildAnswers) :
    (a.out ++ b.out).filter LogEntry.isLinkError =
      (if b.success1 = 0 then [LogEntry.programLinkingError "PROGRAM" b.infoLog1] else []) ++
        (if b.success2 = 0 then [LogEntry.linkingFailed b.infoLog2] else []) := by
  simp only [ReadAnswers.out, BuildAnswers.out]
  split_ifs <;> simp [LogEntry.isLinkError]

/-- The entries of line 45 in the output of a run. -/
theorem out_fileNotRead (a : ReadAnswers) (b : BuildAnswers) :
    (a.out ++ b.out).count LogEntry.fileNotRead = if a.completed then 0 else 1 := by
  simp only [ReadAnswers.out, BuildAnswers.out]
  split_ifs <;> simp

/-- The `try` block completes exactly when no open and no close failed. -/
theorem completed_iff (vp fp : String) (a : ReadAnswers) :
    a.completed = true ↔
      ∀ c ∈ a.calls vp fp, c.openFailure = false ∧ c.closeFailure = false := by
  obtain ⟨vo, fo, vt, ve, ft, fe, vc, fc⟩ := a
  cases vo <;> cases fo <;> cases vc <;> cases fc <;>
    simp [ReadAnswers.completed, ReadAnswers.calls, Call.openFailure, Call.closeFailure]

/-- No status query of the run reports failure exactly when the four
statuses are nonzero. -/
theorem statusFailure_build (vc fc : String) (b : BuildAnswers) :
    (∀ c ∈ b.calls vc fc, c.statusFailure = false) ↔
      b.vSuccess ≠ 0 ∧ b.fSuccess ≠ 0 ∧ b.success1 ≠ 0 ∧ b.success2 ≠ 0 := by
  simp only [BuildAnswers.calls, BuildAnswers.callsToLink]
  split_ifs <;> simp [Call.statusFailure, *]

/-! ## The claims -/

/-- C1: for every file system, driver, pair of paths and environment state
(so for every outcome of the file operations, of the two compiles and of the
link) the constructor completes normally, no exception leaves it, and the
`ID` it stores is the name returned by the one `glCreateProgram` call of the
run; both attach requests and the one link request are made on that name. -/
theorem constructor_completes_with_created_program {ω : Type} (F : FileSystem ω)
    (B : GLBuild ω) (vertexPath fragmentPath : String) (e : ω) :
    ∃ ID : Nat,
      (Shader.new F B vertexPath fragmentPath e).result = .ok { ID := ID } ∧
      createdPrograms (Shader.new F B vertexPath fragmentPath e).calls = [ID] ∧
      (attachRequests (Shader.new F B vertexPath fragmentPath e).calls).map Prod.fst
        = [ID, ID] ∧
      linkRequests (Shader.new F B vertexPath fragmentPath e).calls = [ID] := by
  obtain ⟨a, b, hr, hc, -⟩ := ctor_run F B vertexPath fragmentPath e
  obtain ⟨-, -, -, -, -, h6, h7, h8, -, -, -, -⟩ :=
    run_observed vertexPath fragmentPath a.vertexCode a.fragmentCode a b
  exact ⟨b.ID, hr, by rw [hc, h6], by rw [hc, h7]; rfl, by rw [hc, h8]⟩

/-- C2: in every run the constructor creates the vertex unit and the fragment
unit, requests the compilation of both and queries the compile status of
both.  A compile-error entry is written for a stage exactly when the status
reported for it is 0; its text is the stage name (`VERTEX`, `FRAGMENT`)
followed by the diagnostic fetched for that unit with buffer size 1024.
Whatever the two statuses are, the run creates one program, attaches both
units to it and requests its link. -/
theorem compile_status_checked_per_stage {ω : Type} (F : FileSystem ω) (B : GLBuild ω)
    (vertexPath fragmentPath : String) (e : ω) :
    ∃ (vertex fragment ID : Nat) (vSuccess fSuccess : Int) (vInfoLog fInfoLog : String),
      createdShaders (Shader.new F B vertexPath fragmentPath e).calls =
        [(ShaderType.GL_VERTEX_SHADER, vertex), (ShaderType.GL_FRAGMENT_SHADER, fragment)] ∧
      compileRequests (Shader.new F B vertexPath fragmentPath e).calls = [vertex, fragment] ∧
      compileStatusQueries (Shader.new F B vertexPath fragmentPath e).calls =
        [(vertex, vSuccess), (fragment, fSuccess)] ∧
      shaderLogFetches (Shader.new F B vertexPath fragmentPath e).calls =
        (if vSuccess = 0 then [(vertex, 1024, vInfoLog)] else []) ++
          (if fSuccess = 0 then [(fragment, 1024, fInfoLog)] else []) ∧
      (Shader.new F B vertexPath fragmentPath e).out.filter LogEntry.isCompilationError =
        (if vSuccess = 0 then [LogEntry.compilationError "VERTEX" vInfoLog] else []) ++
          (if fSuccess = 0 then [LogEntry.compilationError "FRAGMENT" fInfoLog] else []) ∧
      (LogEntry.compilationError "VERTEX" vInfoLog).text =
        "ERROR::SHADER_COMPILATION_ERROR of type: VERTEX\n" ++ vInfoLog ++ "\n" ∧
      (LogEntry.compilationError "FRAGMENT" fInfoLog).text =
        "ERROR::SHADER_COMPILATION_ERROR of type: FRAGMENT\n" ++ fInfoLog ++ "\n" ∧
      createdPrograms (Shader.new F B vertexPath fragmentPath e).calls = [ID] ∧
      attachRequests (Shader.new F B vertexPath fragmentPath e).calls =
        [(ID, vertex), (ID, fragment)] ∧
      linkRequests (Shader.new F B vertexPath fragmentPath e).calls = [ID] := by
  obtain ⟨a, b, -, hc, ho⟩ := ctor_run F B vertexPath fragmentPath e
  obtain ⟨h1, -, h3, h4, h5, h6, h7, h8, -, -, -, -⟩ :=
    run_observed vertexPath fragmentPath a.vertexCode a.fragmentCode a b
  refine ⟨b.vertex, b.fragment, b.ID, b.vSuccess, b.fSuccess, b.vInfoLog, b.fInfoLog,
    ?_, ?_, ?_, ?_, ?_, rfl, rfl, ?_, ?_, ?_⟩
  · rw [hc, h1]
  · rw [hc, h3]
  · rw [hc, h4]
  · rw [hc, h5]
  · rw [ho, out_compilationErrors]
  · rw [hc, h6]
  · rw [hc, h7]
  · rw [hc, h8]

/-- C3: in every run both units are attached to one program, its link is
requested once and its link status is queried (twice: in
`checkCompileErrors` and inline).  A query answered 0 writes a link-error
entry carrying the program diagnostic fetched after it; when no query is
answered 0 no link-error entry is written.  In every case the run goes on:
both units are released and the constructor completes with the program
name as `ID`. -/
theorem link_status_checked {ω : Type} (F : FileSystem ω) (B : GLBuild ω)
    (vertexPath fragmentPath : String) (e : ω) :
    ∃ (vertex fragment ID : Nat) (success1 success2 : Int) (infoLog1 infoLog2 : String),
      createdShaders (Shader.new F B vertexPath fragmentPath e).calls =
        [(ShaderType.GL_VERTEX_SHADER, vertex), (ShaderType.GL_FRAGMENT_SHADER, fragment)] ∧
      attachRequests (Shader.new F B vertexPath fragmentPath e).calls =
        [(ID, vertex), (ID, fragment)] ∧
      linkRequests (Shader.new F B vertexPath fragmentPath e).calls = [ID] ∧
      linkStatusQueries (Shader.new F B vertexPath fragmentPath e).calls =
        [(ID, success1), (ID, success2)] ∧
      programLogFetches (Shader.new F B vertexPath fragmentPath e).calls =
        (if success1 = 0 then [(ID, 1024, infoLog1)] else []) ++
          (if success2 = 0 then [(ID, 512, infoLog2)] else []) ∧
      (Shader.new F B vertexPath fragmentPath e).out.filter LogEntry.isLinkError =
        (if success1 = 0 then [LogEntry.programLinkingError "PROGRAM" infoLog1] else []) ++
          (if success2 = 0 then [LogEntry.linkingFailed infoLog2] else []) ∧
      (LogEntry.programLinkingError "PROGRAM" infoLog1).text =
        "ERROR::PROGRAM_LINKING_ERROR of type: PROGRAM\n" ++ infoLog1 ++ "\n" ∧
      (LogEntry.linkingFailed infoLog2).text =
        "ERROR::SHADER::PROGRAM::LINKING_FAILED\n" ++ infoLog2 ++ "\n" ∧
      deletedShaders (Shader.new F B vertexPath fragmentPath e).calls = [vertex, fragment] ∧
      (Shader.new F B vertexPath fragmentPath e).result = .ok { ID := ID } := by
  obtain ⟨a, b, hr, hc, ho⟩ := ctor_run F B vertexPath fragmentPath e
  obtain ⟨h1, -, -, -, -, -, h7, h8, h9, h10, h11, -⟩ :=
    run_observed vertexPath fragmentPath a.vertexCode a.fragmentCode a b
  refine ⟨b.vertex, b.fragment, b.ID, b.success1, b.success2, b.infoLog1, b.infoLog2,
    ?_, ?_, ?_, ?_, ?_, ?_, rfl, rfl, ?_, hr⟩
  · rw [hc, h1]
  · rw [hc, h7]
  · rw [hc, h8]
  · rw [hc, h9]
  · rw [hc, h10]
  · rw [ho, out_linkErrors]
  · rw [hc, h11]

theorem raisedFailure_read (vp fp : String) (a : ReadAnswers) :
    (a.calls vp fp).any Call.raisedFailure = !a.completed := by
  obtain ⟨vo, fo, vt, ve, ft, fe, vc, fc⟩ := a
  cases vo <;> cases fo <;> cases vc <;> cases fc <;>
    simp [ReadAnswers.completed, ReadAnswers.calls, Call.raisedFailure, Call.openFailure,
      Call.closeFailure]

theorem raisedFailure_build (vc fc : String) (b : BuildAnswers) :
    (b.calls vc fc).any Call.raisedFailure = false := by
  simp only [BuildAnswers.calls, BuildAnswers.callsToLink]
  split_ifs <;> simp [Call.raisedFailure, Call.openFailure, Call.closeFailure]

theorem transferredTexts_run (vp fp vc fc : String) (a : ReadAnswers) (b : BuildAnswers) :
    transferredTexts (a.calls vp fp ++ b.calls vc fc) =
      if a.vOpen && a.fOpen then [a.vText, a.fText] else [] := by
  have hb : transferredTexts (b.calls vc fc) = [] := by
    simp only [transferredTexts, BuildAnswers.calls, BuildAnswers.callsToLink]
    split_ifs <;> simp
  have ha : transferredTexts (a.calls vp fp) =
      if a.vOpen && a.fOpen then [a.vText, a.fText] else [] := by
    obtain ⟨vo, fo, vt, ve, ft, fe, vc, fc⟩ := a
    cases vo <;> cases fo <;> cases vc <;> simp [transferredTexts, ReadAnswers.calls]
  simp only [transferredTexts, List.filterMap_append] at *
  rw [ha, hb, List.append_nil]

/-- Supporting fact: the entry of line 45 is written once when an open or a close
failed and not at all otherwise, whatever the two transfers reported. -/
theorem fileNotRead_written_iff_raised {ω : Type} (F : FileSystem ω) (B : GLBuild ω)
    (vertexPath fragmentPath : String) (e : ω) :
    (Shader.new F B vertexPath fragmentPath e).out.count LogEntry.fileNotRead =
      if (Shader.new F B vertexPath fragmentPath e).calls.any Call.raisedFailure
      then 1 else 0 := by
  obtain ⟨a, b, -, hc, ho⟩ := ctor_run F B vertexPath fragmentPath e
  rw [hc, ho, out_fileNotRead, List.any_append, raisedFailure_read, raisedFailure_build]
  cases a.completed <;> rfl

/-- Supporting fact: the two sources submitted are both empty when an open or
a close failed, and otherwise they are the two texts transferred, whether or
not a read error ended a transfer. -/
theorem sources_all_or_nothing {ω : Type} (F : FileSystem ω) (B : GLBuild ω)
    (vertexPath fragmentPath : String) (e : ω) :
    ∃ (vertex fragment : Nat) (vertexCode fragmentCode : String),
      shaderSources (Shader.new F B vertexPath fragmentPath e).calls =
        [(vertex, vertexCode), (fragment, fragmentCode)] ∧
      if (Shader.new F B vertexPath fragmentPath e).calls.any Call.raisedFailure
      then vertexCode = "" ∧ fragmentCode = ""
      else transferredTexts (Shader.new F B vertexPath fragmentPath e).calls =
        [vertexCode, fragmentCode] := by
  obtain ⟨a, b, -, hc, -⟩ := ctor_run F B vertexPath fragmentPath e
  obtain ⟨-, h2, -, -, -, -, -, -, -, -, -, -⟩ :=
    run_observed vertexPath fragmentPath a.vertexCode a.fragmentCode a b
  refine ⟨b.vertex, b.fragment, a.vertexCode, a.fragmentCode, by rw [hc, h2], ?_⟩
  rw [hc, transferredTexts_run, List.any_append, raisedFailure_read, raisedFailure_build]
  obtain ⟨vo, fo, vt, ve, ft, fe, vc, fc⟩ := a
  cases vo <;> cases fo <;> cases vc <;> cases fc <;>
    simp [ReadAnswers.completed, ReadAnswers.vertexCode, ReadAnswers.fragmentCode]

/-- Supporting fact: the run starts by opening the vertex file, and opens the
fragment file only when that open succeeded. -/
theorem fragment_not_opened_after_vertex_open_failure {ω : Type} (F : FileSystem ω)
    (B : GLBuild ω) (vertexPath fragmentPath : String) (e : ω) :
    ∃ good : Bool,
      (Shader.new F B vertexPath fragmentPath e).calls.head? =
        some (Call.fileOpen vertexPath good) ∧
      openedFiles (Shader.new F B vertexPath fragmentPath e).calls =
        if good then [vertexPath, fragmentPath] else [vertexPath] := by
  obtain ⟨a, b, -, hc, -⟩ := ctor_run F B vertexPath fragmentPath e
  have hb : openedFiles (b.calls a.vertexCode a.fragmentCode) = [] := by
    simp only [openedFiles, BuildAnswers.calls, BuildAnswers.callsToLink]
    split_ifs <;> simp
  refine ⟨a.vOpen, by rw [hc]; rfl, ?_⟩
  rw [hc]
  simp only [openedFiles, List.filterMap_append] at hb ⊢
  rw [hb]
  obtain ⟨vo, fo, vt, ve, ft, fe, vc, fc⟩ := a
  cases vo <;> cases fo <;> cases vc <;> simp [ReadAnswers.calls]

/-- C4: a run in which the vertex path names a directory.  The file opens,
the transfer is ended by a read error, and both closes succeed: the vertex
file could not be read, yet the entry of line 45 is not written (the output
is empty). -/
theorem read_error_is_not_logged :
    (Shader.new sampleFS (sampleGL 1 1) "shaders" "shader.fs" ()).calls.filter
        Call.readFailure = [Call.fileRdbuf "shaders" "" true] ∧
    (Shader.new sampleFS (sampleGL 1 1) "shaders" "shader.fs" ()).out.count
        LogEntry.fileNotRead = 0 ∧
    (Shader.new sampleFS (sampleGL 1 1) "shaders" "shader.fs" ()).out = [] := by
  decide

/-- C5: in every run the call sequence ends with the release of the vertex
unit and then of the fragment unit, one `glDeleteShader` each; everything
before them contains the creation of both units, the one link request and no
release, so both releases come after the link request.  No `glDeleteProgram`
is issued by the constructor, by `use` or by a setter. -/
theorem stage_units_released_after_link {ω : Type} (F : FileSystem ω) (B : GLBuild ω)
    (vertexPath fragmentPath : String) (e : ω) :
    (∃ (pre : List Call) (vertex fragment ID : Nat),
      (Shader.new F B vertexPath fragmentPath e).calls =
        pre ++ [Call.glDeleteShader vertex, Call.glDeleteShader fragment] ∧
      createdShaders pre =
        [(ShaderType.GL_VERTEX_SHADER, vertex), (ShaderType.GL_FRAGMENT_SHADER, fragment)] ∧
      createdPrograms pre = [ID] ∧
      linkRequests pre = [ID] ∧
      deletedShaders pre = [] ∧
      deletedPrograms (Shader.new F B vertexPath fragmentPath e).calls = []) ∧
    (∀ (U : GLUniform ω) (self : Shader) (name : String) (b : Bool) (i : Int) (x : GLfloat)
        (e1 : ω),
      deletedPrograms (Shader.use U self e1).calls = [] ∧
      deletedPrograms (Shader.setBool U self name b e1).calls = [] ∧
      deletedPrograms (Shader.setInt U self name i e1).calls = [] ∧
      deletedPrograms (Shader.setFloat U self name x e1).calls = []) := by
  constructor
  · obtain ⟨a, b, -, hc, -⟩ := ctor_run F B vertexPath fragmentPath e
    obtain ⟨h1, -, -, -, -, h6, -, h8, -, -, h11, -⟩ :=
      pre_observed vertexPath fragmentPath a.vertexCode a.fragmentCode a b
    obtain ⟨-, -, -, -, -, -, -, -, -, -, -, h12⟩ :=
      run_observed vertexPath fragmentPath a.vertexCode a.fragmentCode a b
    refine ⟨a.calls vertexPath fragmentPath ++ b.callsToLink a.vertexCode a.fragmentCode,
      b.vertex, b.fragment, b.ID, ?_, h1, h6, h8, h11, ?_⟩
    · rw [hc, BuildAnswers.calls, List.append_assoc]
    · rw [hc, h12]
  · intro U self name b i x e1
    exact ⟨rfl, rfl, rfl, rfl⟩

/-- C6: when no file call of the run fails (both opens, both transfers and
both closes succeed) and no status query is answered 0, the constructor
writes nothing at all and completes with the name of the one program it
created and linked, for which both link-status queries reported success. -/
theorem clean_run_writes_nothing {ω : Type} (F : FileSystem ω) (B : GLBuild ω)
    (vertexPath fragmentPath : String) (e : ω)
    (hfiles : ∀ c ∈ (Shader.new F B vertexPath fragmentPath e).calls,
      c.openFailure = false ∧ c.readFailure = false ∧ c.closeFailure = false)
    (hdriver : ∀ c ∈ (Shader.new F B vertexPath fragmentPath e).calls,
      c.statusFailure = false) :
    (Shader.new F B vertexPath fragmentPath e).out = [] ∧
    ∃ (ID : Nat) (success1 success2 : Int),
      (Shader.new F B vertexPath fragmentPath e).result = .ok { ID := ID } ∧
      createdPrograms (Shader.new F B vertexPath fragmentPath e).calls = [ID] ∧
      linkRequests (Shader.new F B vertexPath fragmentPath e).calls = [ID] ∧
      linkStatusQueries (Shader.new F B vertexPath fragmentPath e).calls =
        [(ID, success1), (ID, success2)] ∧
      success1 ≠ 0 ∧ success2 ≠ 0 := by
  obtain ⟨a, b, hr, hc, ho⟩ := ctor_run F B vertexPath fragmentPath e
  obtain ⟨-, -, -, -, -, h6, -, h8, h9, -, -, -⟩ :=
    run_observed vertexPath fragmentPath a.vertexCode a.fragmentCode a b
  rw [hc] at hfiles hdriver
  have hcompleted : a.completed = true :=
    (completed_iff vertexPath fragmentPath a).2 fun c hmem =>
      ⟨(hfiles c (List.mem_append_left _ hmem)).1, (hfiles c (List.mem_append_left _ hmem)).2.2⟩
  obtain ⟨hv, hf, h1, h2⟩ :=
    (statusFailure_build a.vertexCode a.fragmentCode b).1 fun c hmem =>
      hdriver c (List.mem_append_right _ hmem)
  refine ⟨?_, b.ID, b.success1, b.success2, hr, ?_, ?_, ?_, h1, h2⟩
  · rw [ho]
    simp [ReadAnswers.out, BuildAnswers.out, hcompleted, hv, hf, h1, h2]
  · rw [hc, h6]
  · rw [hc, h8]
  · rw [hc, h9]

theorem clean_run_writes_nothing_witness :
    (∀ c ∈ (Shader.new sampleFS (sampleGL 1 1) "shader.vs" "shader.fs" ()).calls,
      c.openFailure = false ∧ c.readFailure = false ∧ c.closeFailure = false) ∧
    (∀ c ∈ (Shader.new sampleFS (sampleGL 1 1) "shader.vs" "shader.fs" ()).calls,
      c.statusFailure = false) ∧
    (Shader.new sampleFS (sampleGL 1 1) "shader.vs" "shader.fs" ()).out = [] ∧
    ∃ (ID : Nat) (success1 success2 : Int),
      (Shader.new sampleFS (sampleGL 1 1) "shader.vs" "shader.fs" ()).result =
        .ok { ID := ID } ∧
      createdPrograms (Shader.new sampleFS (sampleGL 1 1) "shader.vs" "shader.fs" ()).calls
        = [ID] ∧
      linkRequests (Shader.new sampleFS (sampleGL 1 1) "shader.vs" "shader.fs" ()).calls
        = [ID] ∧
      linkStatusQueries (Shader.new sampleFS (sampleGL 1 1) "shader.vs" "shader.fs" ()).calls
        = [(ID, success1), (ID, success2)] ∧
      success1 ≠ 0 ∧ success2 ≠ 0 :=
  ⟨by decide, by decide,
    clean_run_writes_nothing sampleFS (sampleGL 1 1) "shader.vs" "shader.fs" ()
      (by decide) (by decide)⟩

/-- C7: `setInt` and `setFloat` complete normally, write nothing and issue
exactly two calls: `glGetUniformLocation` of the name in the program `ID` of
the object, then `glUniform1i` (`glUniform1f` for `setFloat`) of the value at
the location that came back.  `setBool(name, b)` is `setInt(name, b ? 1 : 0)`.
The methods are `const`: they return no object, `ID` stays as it is. -/
theorem setters_lookup_then_upload {ω : Type} (U : GLUniform ω) (self : Shader)
    (name : String) (b : Bool) (i : Int) (x : GLfloat) (e : ω) :
    Shader.setInt U self name i e =
      { result := .ok (),
        env := U.glUniform1i (U.glGetUniformLocation self.ID name e).1 i
          (U.glGetUniformLocation self.ID name e).2,
        calls := [Call.glGetUniformLocation self.ID name (U.glGetUniformLocation self.ID name e).1,
          Call.glUniform1i (U.glGetUniformLocation self.ID name e).1 i],
        out := [] } ∧
    Shader.setFloat U self name x e =
      { result := .ok (),
        env := U.glUniform1f (U.glGetUniformLocation self.ID name e).1 x
          (U.glGetUniformLocation self.ID name e).2,
        calls := [Call.glGetUniformLocation self.ID name (U.glGetUniformLocation self.ID name e).1,
          Call.glUniform1f (U.glGetUniformLocation self.ID name e).1 x],
        out := [] } ∧
    Shader.setBool U self name b e = Shader.setInt U self name (if b then 1 else 0) e :=
  ⟨rfl, rfl, rfl⟩

theorem location_of_uniform (g : GLState) (program : Nat) (name : String)
    (hlinked : g.linked program = true) (hname : name ∈ g.uniforms program) :
    0 ≤ g.location program name ∧
      g.location program name < ((g.uniforms program).length : Int) := by
  unfold GLState.location
  rw [if_pos ⟨hlinked, hname⟩]
  exact ⟨Int.ofNat_nonneg _, Int.ofNat_lt.mpr (List.indexOf_lt_length.mpr hname)⟩

/-- C8: over the driver model `refGL`, for a `Shader` whose `ID` names a
successfully linked program (so `ID` is not 0, which names no program) and a
name that is a uniform of that program:
after `use` the active program is `ID`; a following `setInt`, `setBool` or
`setFloat` leaves that uniform of program `ID` holding the uploaded value and
leaves the uniform state of every other program as it was before `use`. -/
theorem use_then_upload_targets_own_program (self : Shader) (g : GLState) (name : String)
    (b : Bool) (i : Int) (x : GLfloat)
    (hID : self.ID ≠ 0) (hlinked : g.linked self.ID = true)
    (hname : name ∈ g.uniforms self.ID) :
    (Shader.use refGL self g).env.current = self.ID ∧
    ((Shader.setInt refGL self name i (Shader.use refGL self g).env).env.uniformValue
        self.ID name = some (UniformValue.int i) ∧
      ∀ p, p ≠ self.ID →
        (Shader.setInt refGL self name i (Shader.use refGL self g).env).env.value p
          = g.value p) ∧
    ((Shader.setBool refGL self name b (Shader.use refGL self g).env).env.uniformValue
        self.ID name = some (UniformValue.int (if b then 1 else 0)) ∧
      ∀ p, p ≠ self.ID →
        (Shader.setBool refGL self name b (Shader.use refGL self g).env).env.value p
          = g.value p) ∧
    ((Shader.setFloat refGL self name x (Shader.use refGL self g).env).env.uniformValue
        self.ID name = some (UniformValue.float x) ∧
      ∀ p, p ≠ self.ID →
        (Shader.setFloat refGL self name x (Shader.use refGL self g).env).env.value p
          = g.value p) := by
  obtain ⟨h0, h1⟩ := location_of_uniform g self.ID name hlinked hname
  have huse : (Shader.use refGL self g).env = { g with current := self.ID } := by
    show (if self.ID = 0 ∨ g.linked self.ID = true then
      ({ g with current := self.ID } : GLState) else g) = _
    rw [if_pos (Or.inr hlinked)]
  have hup : ∀ v : UniformValue,
      (({ g with current := self.ID } : GLState).upload (g.location self.ID name) v)
        = { g with current := self.ID, value := fun p l =>
            if p = self.ID ∧ l = g.location self.ID name then some v else g.value p l } := by
    intro v
    unfold GLState.upload
    rw [if_pos ⟨hID, h0, h1⟩]
  have hframe : ∀ v : UniformValue, ∀ p, p ≠ self.ID →
      (fun l => if p = self.ID ∧ l = g.location self.ID name then some v else g.value p l)
        = g.value p := by
    intro v p hp
    funext l
    rw [if_neg (fun h => hp h.1)]
  have hval : ∀ v : UniformValue,
      (((Shader.use refGL self g).env).upload
        (((Shader.use refGL self g).env).location self.ID name) v)
        = { g with current := self.ID, value := fun p l =>
            if p = self.ID ∧ l = g.location self.ID name then some v else g.value p l } := by
    intro v
    rw [huse]
    exact hup v
  have hown : ∀ v : UniformValue,
      GLState.uniformValue ({ g with current := self.ID, value := fun p l =>
        if p = self.ID ∧ l = g.location self.ID name then some v else g.value p l })
        self.ID name = some v := by
    intro v
    show (if self.ID = self.ID ∧ g.location self.ID name = g.location self.ID name
      then some v else g.value self.ID (g.location self.ID name)) = some v
    rw [if_pos ⟨rfl, rfl⟩]
  refine ⟨by rw [huse], ⟨?_, ?_⟩, ⟨?_, ?_⟩, ⟨?_, ?_⟩⟩
  · exact (congrArg (fun s => GLState.uniformValue s self.ID name)
      (hval (UniformValue.int i))).trans (hown _)
  · intro p hp
    exact (congrArg (fun s => GLState.value s p) (hval (UniformValue.int i))).trans
      (hframe _ p hp)
  · exact (congrArg (fun s => GLState.uniformValue s self.ID name)
      (hval (UniformValue.int (if b then 1 else 0)))).trans (hown _)
  · intro p hp
    exact (congrArg (fun s => GLState.value s p)
      (hval (UniformValue.int (if b then 1 else 0)))).trans (hframe _ p hp)
  · exact (congrArg (fun s => GLState.uniformValue s self.ID name)
      (hval (UniformValue.float x))).trans (hown _)
  · intro p hp
    exact (congrArg (fun s => GLState.value s p) (hval (UniformValue.float x))).trans
      (hframe _ p hp)

theorem use_then_upload_targets_own_program_witness :
    (3 : Nat) ≠ 0 ∧ sampleState.linked 3 = true ∧ "mixValue" ∈ sampleState.uniforms 3 ∧
    (Shader.use refGL { ID := 3 } sampleState).env.current = 3 ∧
    ((Shader.setInt refGL { ID := 3 } "mixValue" 5
        (Shader.use refGL { ID := 3 } sampleState).env).env.uniformValue 3 "mixValue"
        = some (UniformValue.int 5) ∧
      ∀ p, p ≠ 3 →
        (Shader.setInt refGL { ID := 3 } "mixValue" 5
          (Shader.use refGL { ID := 3 } sampleState).env).env.value p
          = sampleState.value p) ∧
    ((Shader.setBool refGL { ID := 3 } "mixValue" true
        (Shader.use refGL { ID := 3 } sampleState).env).env.uniformValue 3 "mixValue"
        = some (UniformValue.int (if true then 1 else 0)) ∧
      ∀ p, p ≠ 3 →
        (Shader.setBool refGL { ID := 3 } "mixValue" true
          (Shader.use refGL { ID := 3 } sampleState).env).env.value p
          = sampleState.value p) ∧
    ((Shader.setFloat refGL { ID := 3 } "mixValue" { bits := 1056964608 }
        (Shader.use refGL { ID := 3 } sampleState).env).env.uniformValue 3 "mixValue"
        = some (UniformValue.float { bits := 1056964608 }) ∧
      ∀ p, p ≠ 3 →
        (Shader.setFloat refGL { ID := 3 } "mixValue" { bits := 1056964608 }
          (Shader.use refGL { ID := 3 } sampleState).env).env.value p
          = sampleState.value p) :=
  ⟨by decide, by decide, by decide,
    use_then_upload_targets_own_program { ID := 3 } sampleState "mixValue" true 5
      { bits := 1056964608 } (by decide) (by decide) (by decide)⟩

/-- C9: a run in which the vertex file is read in full and the fragment path
names a directory, so that the fragment transfer is ended by a read error.
The vertex source is not discarded: it is submitted in full, next to an empty
fragment source. -/
theorem vertex_source_kept_after_fragment_read_error :
    (Shader.new sampleFS (sampleGL 1 1) "shader.vs" "shaders" ()).calls.filter
        Call.readFailure = [Call.fileRdbuf "shaders" "" true] ∧
    shaderSources (Shader.new sampleFS (sampleGL 1 1) "shader.vs" "shaders" ()).calls =
      [(1, "#version 330 core // vertex stage"), (2, "")] := by
  decide

/-- C10: when every link-status query of the run is answered 0, the
link-error entries of the output are exactly two, in this order: the entry of
`checkCompileErrors` (`ERROR::PROGRAM_LINKING_ERROR of type: PROGRAM`) with the
diagnostic fetched with buffer size 1024, then the inline entry
(`ERROR::SHADER::PROGRAM::LINKING_FAILED`) with the diagnostic fetched with
buffer size 512.  The link status is queried twice and the link is requested
once. -/
theorem failed_link_reported_twice {ω : Type} (F : FileSystem ω) (B : GLBuild ω)
    (vertexPath fragmentPath : String) (e : ω)
    (hfailed : ∀ q ∈ linkStatusQueries (Shader.new F B vertexPath fragmentPath e).calls,
      q.2 = 0) :
    ∃ (ID : Nat) (infoLog1 infoLog2 : String),
      (Shader.new F B vertexPath fragmentPath e).out.filter LogEntry.isLinkError =
        [LogEntry.programLinkingError "PROGRAM" infoLog1, LogEntry.linkingFailed infoLog2] ∧
      (LogEntry.programLinkingError "PROGRAM" infoLog1).text =
        "ERROR::PROGRAM_LINKING_ERROR of type: PROGRAM\n" ++ infoLog1 ++ "\n" ∧
      (LogEntry.linkingFailed infoLog2).text =
        "ERROR::SHADER::PROGRAM::LINKING_FAILED\n" ++ infoLog2 ++ "\n" ∧
      programLogFetches (Shader.new F B vertexPath fragmentPath e).calls =
        [(ID, 1024, infoLog1), (ID, 512, infoLog2)] ∧
      linkStatusQueries (Shader.new F B vertexPath fragmentPath e).calls =
        [(ID, 0), (ID, 0)] ∧
      linkRequests (Shader.new F B vertexPath fragmentPath e).calls = [ID] := by
  obtain ⟨a, b, -, hc, ho⟩ := ctor_run F B vertexPath fragmentPath e
  obtain ⟨-, -, -, -, -, -, -, h8, h9, h10, -, -⟩ :=
    run_observed vertexPath fragmentPath a.vertexCode a.fragmentCode a b
  rw [hc, h9] at hfailed
  have h1 : b.success1 = 0 := hfailed (b.ID, b.success1) (by simp)
  have h2 : b.success2 = 0 := hfailed (b.ID, b.success2) (by simp)
  refine ⟨b.ID, b.infoLog1, b.infoLog2, ?_, rfl, rfl, ?_, ?_, ?_⟩
  · rw [ho, out_linkErrors]; simp [h1, h2]
  · rw [hc, h10]; simp [h1, h2]
  · rw [hc, h9, h1, h2]
  · rw [hc, h8]

theorem failed_link_reported_twice_witness :
    (∀ q ∈ linkStatusQueries
        (Shader.new sampleFS (sampleGL 1 0) "shader.vs" "shader.fs" ()).calls, q.2 = 0) ∧
    ∃ (ID : Nat) (infoLog1 infoLog2 : String),
      (Shader.new sampleFS (sampleGL 1 0) "shader.vs" "shader.fs" ()).out.filter
          LogEntry.isLinkError =
        [LogEntry.programLinkingError "PROGRAM" infoLog1, LogEntry.linkingFailed infoLog2] ∧
      (LogEntry.programLinkingError "PROGRAM" infoLog1).text =
        "ERROR::PROGRAM_LINKING_ERROR of type: PROGRAM\n" ++ infoLog1 ++ "\n" ∧
      (LogEntry.linkingFailed infoLog2).text =
        "ERROR::SHADER::PROGRAM::LINKING_FAILED\n" ++ infoLog2 ++ "\n" ∧
      programLogFetches (Shader.new sampleFS (sampleGL 1 0) "shader.vs" "shader.fs" ()).calls =
        [(ID, 1024, infoLog1), (ID, 512, infoLog2)] ∧
      linkStatusQueries (Shader.new sampleFS (sampleGL 1 0) "shader.vs" "shader.fs" ()).calls =
        [(ID, 0), (ID, 0)] ∧
      linkRequests (Shader.new sampleFS (sampleGL 1 0) "shader.vs" "shader.fs" ()).calls =
        [ID] :=
  ⟨by decide,
    failed_link_reported_twice sampleFS (sampleGL 1 0) "shader.vs" "shader.fs" () (by decide)⟩

end ShaderModel
